import Mathlib

/-!
Verification of the monitord desktop supervisor (Electron main process).

The definitions below are a shallow embedding of the lifecycle-supervisor
code of `desktop-electron/main.js`: the configuration/base-url derivation
(`resolveBackendBaseUrl`), the process-control layer (`waitForExit`,
`stopAgentProcess`), the health probe (`waitForBackendReady`), the managed
start (`startAgentManaged`), the IPC operation handlers
(`agent:start`, `agent:stop`, `agent:status`, `telegram:set-enabled`) and
the promise-chain operation serializer (`withAgentOp`).

External effects (filesystem reads/writes, process spawning, process exit
timing, health responses) are supplied by explicit environment records, so
every definition is executable.  Asynchronous JS is single threaded; each
operation body is modelled as a straight-line state transformer, and the
serializer chain as sequential composition, matching the promise-chain
denotation.  Out-of-band process-exit notifications are modelled by the
separate transition `agentExitFired`.
-/

namespace Monitord

/-! ### String helpers (JS semantics on `List Char`) -/

/-- JS `String.prototype.trim`: strip leading and trailing whitespace. -/
def trimList (l : List Char) : List Char :=
  ((l.dropWhile Char.isWhitespace).reverse.dropWhile Char.isWhitespace).reverse

/-- Index of the last occurrence of character `c` (JS `lastIndexOf` for a
single-character needle; `none` models `-1`). -/
def lastIndexOfChar (c : Char) : List Char → Option Nat
  | [] => none
  | x :: xs =>
    match lastIndexOfChar c xs with
    | some i => some (i + 1)
    | none => if x = c then some 0 else none

/-- `startsWithList l pat`: `pat` occurs at the start of `l`. -/
def startsWithList : List Char → List Char → Bool
  | _, [] => true
  | [], _ :: _ => false
  | x :: xs, y :: ys => x = y && startsWithList xs ys

/-- Index of the last occurrence of `pat` (JS `lastIndexOf` with a string
needle; `none` models `-1`). -/
def lastIndexOfSeq (pat : List Char) : List Char → Option Nat
  | [] => if startsWithList [] pat then some 0 else none
  | x :: xs =>
    match lastIndexOfSeq pat xs with
    | some i => some (i + 1)
    | none => if startsWithList (x :: xs) pat then some 0 else none

/-! ### `resolveBackendBaseUrl` (main.js lines 286-311) -/

/-- Core of `resolveBackendBaseUrl` after `String(listen || '').trim()`. -/
def resolveCore (raw : List Char) : List Char :=
  if raw = [] then "http://127.0.0.1:9108".toList
  else
    let dflt : List Char × List Char := ("127.0.0.1".toList, "9108".toList)
    let hp : List Char × List Char :=
      if startsWithList raw "[".toList then
        match lastIndexOfSeq "]:".toList raw with
        | some idx => if 0 < idx then ((raw.drop 1).take (idx - 1), raw.drop (idx + 2)) else dflt
        | none => dflt
      else
        match lastIndexOfChar ':' raw with
        | some idx => if 0 < idx then (raw.take idx, raw.drop (idx + 1)) else dflt
        | none => dflt
    let host :=
      if hp.1 = [] ∨ hp.1 = "0.0.0.0".toList ∨ hp.1 = "::".toList then "127.0.0.1".toList
      else hp.1
    "http://".toList ++ host ++ [':'] ++ hp.2

/-- `resolveBackendBaseUrl(listen)`: derives the dialable base URL from the
configured listen address, substituting the loopback host for wildcard
binds. -/
def resolveBackendBaseUrl (listen : String) : String :=
  ⟨resolveCore (trimList listen.toList)⟩

example : resolveBackendBaseUrl "0.0.0.0:9108" = "http://127.0.0.1:9108" := by decide
example : resolveBackendBaseUrl "[::]:9108" = "http://127.0.0.1:9108" := by decide
example : resolveBackendBaseUrl "localhost" = "http://127.0.0.1:9108" := by decide
example : resolveBackendBaseUrl "" = "http://127.0.0.1:9108" := by decide
example : resolveBackendBaseUrl "192.168.0.7:8001" = "http://192.168.0.7:8001" := by decide
example : resolveBackendBaseUrl "[::1]:9108" = "http://::1:9108" := by decide

/-! ### Lemmas about the string helpers -/

lemma dropWhile_eq_self_of_none (p : Char → Bool) (l : List Char)
    (h : ∀ c ∈ l, p c = false) : l.dropWhile p = l := by
  cases l with
  | nil => rfl
  | cons x xs => simp [List.dropWhile_cons, h x (List.mem_cons_self x xs)]

lemma trimList_eq_self (l : List Char) (h : ∀ c ∈ l, c.isWhitespace = false) :
    trimList l = l := by
  unfold trimList
  rw [dropWhile_eq_self_of_none _ _ h,
    dropWhile_eq_self_of_none _ _ (fun c hc => h c (List.mem_reverse.mp hc)),
    List.reverse_reverse]

lemma lastIndexOfChar_eq_none (c : Char) (l : List Char) (h : c ∉ l) :
    lastIndexOfChar c l = none := by
  induction l with
  | nil => rfl
  | cons x xs ih =>
    have hx : ¬x = c := by rintro rfl; exact h (List.mem_cons_self _ _)
    have hxs : c ∉ xs := fun hm => h (List.mem_cons_of_mem _ hm)
    simp [lastIndexOfChar, ih hxs, hx]

lemma lastIndexOfChar_append (c : Char) (l₁ l₂ : List Char) (h : c ∉ l₂) :
    lastIndexOfChar c (l₁ ++ l₂) = lastIndexOfChar c l₁ := by
  induction l₁ with
  | nil => simpa using lastIndexOfChar_eq_none c l₂ h
  | cons x xs ih => simp [lastIndexOfChar, ih]

lemma lastIndexOfChar_concat (c : Char) (l : List Char) (h : c ∉ l) :
    lastIndexOfChar c (l ++ [c]) = some l.length := by
  induction l with
  | nil => simp [lastIndexOfChar]
  | cons x xs ih =>
    have hxs : c ∉ xs := fun hm => h (List.mem_cons_of_mem _ hm)
    simp [lastIndexOfChar, ih hxs]

lemma startsWithList_single (l : List Char) (c : Char) (h : c ∉ l) :
    startsWithList l [c] = false := by
  cases l with
  | nil => rfl
  | cons x xs =>
    have hx : ¬x = c := by rintro rfl; exact h (List.mem_cons_self _ _)
    simp [startsWithList, hx]

lemma lastIndexOfSeq_eq_none (p : List Char) (h : ':' ∉ p) :
    lastIndexOfSeq [']', ':'] p = none := by
  induction p with
  | nil => rfl
  | cons x xs ih =>
    have hxs : ':' ∉ xs := fun hm => h (List.mem_cons_of_mem _ hm)
    simp [lastIndexOfSeq, ih hxs, startsWithList, startsWithList_single xs ':' hxs]

lemma lastIndexOfSeq_append (l₁ p : List Char) (h : ':' ∉ p) :
    lastIndexOfSeq [']', ':'] (l₁ ++ p) = lastIndexOfSeq [']', ':'] l₁ := by
  induction l₁ with
  | nil => simpa using lastIndexOfSeq_eq_none p h
  | cons x xs ih =>
    have hsw : startsWithList (xs ++ p) [':'] = startsWithList xs [':'] := by
      cases xs with
      | nil => simpa [startsWithList] using startsWithList_single p ':' h
      | cons y ys => simp [startsWithList]
    simp [lastIndexOfSeq, ih, startsWithList, hsw]

lemma isDigit_not_ws (c : Char) (h : c.isDigit = true) : c.isWhitespace = false := by
  cases hws : c.isWhitespace
  · rfl
  · exfalso
    have hws2 : ((c = ' ' ∨ c = '\t') ∨ c = '\x0d') ∨ c = '\n' := by
      simpa [Char.isWhitespace] using hws
    rcases hws2 with ((rfl | rfl) | rfl) | rfl <;> exact absurd h (by decide)

lemma notMem_of_isDigit (p : List Char) (hd : ∀ c ∈ p, c.isDigit = true) (c : Char)
    (hc : c.isDigit = false) : c ∉ p := fun hm => by
  rw [hd c hm] at hc
  exact Bool.noConfusion hc

/-! ### Base-url derivation theorems (claims C8 and C10) -/

lemma resolveCore_no_colon (raw : List Char) (h : ':' ∉ raw) :
    resolveCore raw = "http://127.0.0.1:9108".toList := by
  unfold resolveCore
  by_cases hraw : raw = []
  · simp [hraw]
  · rw [if_neg hraw]
    have hpat : ("]:".toList : List Char) = [']', ':'] := rfl
    cases hb : startsWithList raw "[".toList <;>
      simp [hb, hpat, lastIndexOfSeq_eq_none raw h, lastIndexOfChar_eq_none ':' raw h]

/-- C10: a configured listen string with no host:port separator (after
trimming) is discarded entirely; the derived base address is the default
`http://127.0.0.1:9108` — the host portion of the input is not preserved. -/
theorem resolveBackendBaseUrl_no_separator (s : String)
    (h : ':' ∉ trimList s.toList) :
    resolveBackendBaseUrl s = "http://127.0.0.1:9108" := by
  unfold resolveBackendBaseUrl
  rw [resolveCore_no_colon _ h]
  rfl

/-- Witness for C10 at the bare-hostname input "localhost". -/
theorem resolveBackendBaseUrl_no_separator_witness :
    ':' ∉ trimList "localhost".toList ∧
      resolveBackendBaseUrl "localhost" = "http://127.0.0.1:9108" :=
  ⟨by decide, resolveBackendBaseUrl_no_separator "localhost" (by decide)⟩

/-- C8 counterexample: the IPv6 wildcard listen address `[::]:9108` is mapped
to the IPv4 loopback base address, not to the IPv6 loopback equivalent
`http://[::1]:9108` the claim requires. -/
theorem resolveBackendBaseUrl_ipv6_wildcard_counterexample :
    resolveBackendBaseUrl "[::]:9108" = "http://127.0.0.1:9108" ∧
      resolveBackendBaseUrl "[::]:9108" ≠ "http://[::1]:9108" :=
  ⟨by decide, by decide⟩

lemma resolveCore_v4_wildcard (p : List Char) (hd : ∀ c ∈ p, c.isDigit = true) :
    resolveCore ("0.0.0.0:".toList ++ p) = "http://127.0.0.1:".toList ++ p := by
  have hc : ':' ∉ p := notMem_of_isDigit p hd ':' (by decide)
  have hidx : lastIndexOfChar ':' ("0.0.0.0:".toList ++ p) = some 7 := by
    have h1 : ("0.0.0.0:".toList ++ p : List Char) = ("0.0.0.0".toList ++ [':']) ++ p := by
      simp
    rw [h1, lastIndexOfChar_append ':' _ p hc, lastIndexOfChar_concat ':' _ (by decide)]
    rfl
  have hne : ("0.0.0.0:".toList ++ p : List Char) ≠ [] := by simp
  unfold resolveCore
  rw [if_neg hne]
  have hb : startsWithList ("0.0.0.0:".toList ++ p) "[".toList = false := rfl
  rw [hb]
  simp only [Bool.false_eq_true, if_false, hidx]
  rfl

lemma resolveCore_v6_wildcard (p : List Char) (hd : ∀ c ∈ p, c.isDigit = true) :
    resolveCore ("[::]:".toList ++ p) = "http://127.0.0.1:".toList ++ p := by
  have hc : ':' ∉ p := notMem_of_isDigit p hd ':' (by decide)
  have hidx : lastIndexOfSeq [']', ':'] ("[::]:".toList ++ p) = some 3 := by
    rw [lastIndexOfSeq_append _ p hc]
    decide
  have hne : ("[::]:".toList ++ p : List Char) ≠ [] := by simp
  unfold resolveCore
  rw [if_neg hne]
  have hb : startsWithList ("[::]:".toList ++ p) "[".toList = true := rfl
  have hpat : ("]:".toList : List Char) = [']', ':'] := rfl
  rw [hb, hpat]
  simp only [if_true, hidx]
  rfl

lemma resolveCore_plain_host (h p : List Char) (hne : h ≠ [])
    (hcol : ':' ∉ h) (hhead : h.head? ≠ some '[') (h0 : h ≠ "0.0.0.0".toList)
    (hd : ∀ c ∈ p, c.isDigit = true) :
    resolveCore (h ++ ':' :: p) = "http://".toList ++ h ++ ':' :: p := by
  have hc : ':' ∉ p := notMem_of_isDigit p hd ':' (by decide)
  have hidx : lastIndexOfChar ':' (h ++ ':' :: p) = some h.length := by
    have h1 : h ++ ':' :: p = (h ++ [':']) ++ p := by simp
    rw [h1, lastIndexOfChar_append ':' _ p hc, lastIndexOfChar_concat ':' _ hcol]
  have hner : (h ++ ':' :: p : List Char) ≠ [] := by simp
  obtain ⟨x, xs, rfl⟩ : ∃ x xs, h = x :: xs := by
    cases h with
    | nil => exact absurd rfl hne
    | cons x xs => exact ⟨x, xs, rfl⟩
  have hx : ¬x = '[' := by
    intro hxx
    exact hhead (by rw [hxx]; rfl)
  have hb : startsWithList ((x :: xs) ++ ':' :: p) "[".toList = false := by
    simp [startsWithList, List.cons_append, hx]
  have hcolmix : ':' ∉ x :: xs := hcol
  unfold resolveCore
  rw [if_neg hner, hb]
  simp only [Bool.false_eq_true, if_false, hidx]
  have hpos : 0 < (x :: xs).length := by simp
  rw [if_pos hpos]
  have htake : ((x :: xs) ++ ':' :: p).take (x :: xs).length = x :: xs :=
    List.take_left _ _
  have hdrop : ((x :: xs) ++ ':' :: p).drop ((x :: xs).length + 1) = p := by
    have h1 : (x :: xs) ++ ':' :: p = ((x :: xs) ++ [':']) ++ p := by simp
    have h2 : ((x :: xs) ++ [':']).length = (x :: xs).length + 1 := by simp
    rw [h1, ← h2, List.drop_left]
  simp only [htake, hdrop]
  have hhost : ¬(x :: xs = [] ∨ x :: xs = "0.0.0.0".toList ∨ x :: xs = "::".toList) := by
    rintro (he | he | he)
    · exact List.cons_ne_nil _ _ he
    · exact h0 he
    · exact hcolmix (by rw [he]; decide)
  rw [if_neg hhost]
  simp

/-- C8 (amended): `resolveBackendBaseUrl` maps **both** the IPv4 wildcard bind
`0.0.0.0:port` and the IPv6 wildcard bind `[::]:port` to the IPv4 loopback
base address `http://127.0.0.1:port`; a non-wildcard, unbracketed host is kept
unchanged with its port. -/
theorem resolveBackendBaseUrl_wildcard (p h : List Char)
    (hd : ∀ c ∈ p, c.isDigit = true)
    (hne : h ≠ []) (hcol : ':' ∉ h) (hws : ∀ c ∈ h, c.isWhitespace = false)
    (hhead : h.head? ≠ some '[') (h0 : h ≠ "0.0.0.0".toList) :
    resolveBackendBaseUrl ⟨"0.0.0.0:".toList ++ p⟩ = ⟨"http://127.0.0.1:".toList ++ p⟩ ∧
    resolveBackendBaseUrl ⟨"[::]:".toList ++ p⟩ = ⟨"http://127.0.0.1:".toList ++ p⟩ ∧
    resolveBackendBaseUrl ⟨h ++ ':' :: p⟩ = ⟨"http://".toList ++ h ++ ':' :: p⟩ := by
  have hwp : ∀ c ∈ p, c.isWhitespace = false := fun c hc => isDigit_not_ws c (hd c hc)
  refine ⟨?_, ?_, ?_⟩
  · show String.mk (resolveCore (trimList ("0.0.0.0:".toList ++ p))) = _
    rw [trimList_eq_self _ (by
      intro c hc
      rcases List.mem_append.mp hc with hm | hm
      · exact (by decide : ∀ c ∈ "0.0.0.0:".toList, c.isWhitespace = false) c hm
      · exact hwp c hm)]
    rw [resolveCore_v4_wildcard p hd]
  · show String.mk (resolveCore (trimList ("[::]:".toList ++ p))) = _
    rw [trimList_eq_self _ (by
      intro c hc
      rcases List.mem_append.mp hc with hm | hm
      · exact (by decide : ∀ c ∈ "[::]:".toList, c.isWhitespace = false) c hm
      · exact hwp c hm)]
    rw [resolveCore_v6_wildcard p hd]
  · show String.mk (resolveCore (trimList (h ++ ':' :: p))) = _
    rw [trimList_eq_self _ (by
      intro c hc
      rcases List.mem_append.mp hc with hm | hm
      · exact hws c hm
      · rcases List.mem_cons.mp hm with rfl | hm
        · decide
        · exact hwp c hm)]
    rw [resolveCore_plain_host h p hne hcol hhead h0 hd]

/-- Witness for C8 (amended) at port 9108 and the plain host 192.168.0.7. -/
theorem resolveBackendBaseUrl_wildcard_witness :
    resolveBackendBaseUrl "0.0.0.0:9108" = "http://127.0.0.1:9108" ∧
    resolveBackendBaseUrl "[::]:9108" = "http://127.0.0.1:9108" ∧
    resolveBackendBaseUrl "192.168.0.7:9108" = "http://192.168.0.7:9108" :=
  resolveBackendBaseUrl_wildcard "9108".toList "192.168.0.7".toList
    (by decide) (by decide) (by decide) (by decide) (by decide) (by decide)

/-! ### Process control (main.js lines 313-394)

A Node `ChildProcess` object is modelled by its pid and the two fields the
supervisor reads: `exitCode` (`none` while the process runs) and `killed`.
Node semantics: `subprocess.kill(sig)` returns `true` and sets `killed` when
the signal was sent successfully; sending to an already-exited process fails
(returns `false`) without setting `killed`.  `killed` does **not** mean the
process has terminated. -/

inductive Platform
  | win32
  | posix
deriving DecidableEq, Repr

structure Child where
  pid : Nat
  exitCode : Option Int
  killed : Bool
deriving DecidableEq, Repr

/-- `subprocess.kill(signal)` (Node semantics, see above). -/
def Child.kill (c : Child) : Child × Bool :=
  if c.exitCode = none then ({ c with killed := true }, true) else (c, false)

/-- Observable side effects of the supervisor on the outside world. -/
inductive Ev
  | spawn (pid : Nat)
  | spawnTaskkill (pid : Nat)
  | sigterm (pid : Nat)
  | sigkill (pid : Nat)
deriving DecidableEq, Repr

/-- `waitForExit(child, timeoutMs)` (main.js lines 334-354): resolves at once
when the child is already exited **or has `killed` set**; otherwise resolves
when the child exits (oracle `exitsAfter` gives the delay, `none` = never
within any bound) or when the timeout fires.  Returns the updated child and
the elapsed milliseconds. -/
def waitForExit (c : Child) (timeoutMs : Nat) (exitsAfter : Option Nat) :
    Child × Nat :=
  if c.exitCode ≠ none ∨ c.killed = true then (c, 0)
  else
    match exitsAfter with
    | some d => if d ≤ timeoutMs then ({ c with exitCode := some 0 }, d) else (c, timeoutMs)
    | none => (c, timeoutMs)

/-- Configuration document (the YAML file): the fields the supervisor reads. -/
structure ConfigDoc where
  listen : String
  telegramEnabled : Bool
deriving DecidableEq, Repr

/-- The module-level mutable state of main.js: `agentChild`,
`telegramEnabledRuntime`, `backendBaseUrlRuntime`, `agentTransitioning`,
plus the persisted configuration document `cfg` (owned by the filesystem). -/
structure AgentState where
  agentChild : Option Child
  telegramEnabledRuntime : Bool
  backendBaseUrlRuntime : String
  agentTransitioning : Bool
  cfg : ConfigDoc
deriving DecidableEq, Repr

/-- Environment for one `stopAgentProcess` call: exit-timing oracles for the
taskkill helper and for the agent child (measured from the start of the
respective wait), and whether `child.kill` throws. -/
structure StopEnv where
  killThrows : Bool
  killerPid : Nat
  killerExitsAfter : Option Nat
  exitsAfterGraceful : Option Nat
  exitsAfterKill : Option Nat
deriving Repr

structure StopOut where
  result : Bool
  state : AgentState
  trace : List Ev
  elapsedMs : Nat
deriving DecidableEq, Repr

/-- `stopAgentProcess()` (main.js lines 365-394).  Straight-line transcription:
no-op success when no child is tracked; on win32 spawn `taskkill /T /F` and
await the helper (≤5000ms), otherwise `child.kill('SIGTERM')`;
`waitForExit(child, 7000)`; if `exitCode === null && !child.killed`, escalate
with `child.kill('SIGKILL')` and `waitForExit(child, 2000)`.  The `finally`
block clears `agentChild` and `telegramEnabledRuntime` (the `agentChild ===
child` identity test holds throughout this straight-line execution). -/
def stopAgentProcess (platform : Platform) (env : StopEnv) (s : AgentState) :
    StopOut :=
  match s.agentChild with
  | none => ⟨true, s, [], 0⟩
  | some child =>
    let cleared : AgentState :=
      { s with agentChild := none, telegramEnabledRuntime := false }
    if platform = Platform.win32 ∧ child.pid ≠ 0 then
      let tk := waitForExit ⟨env.killerPid, none, false⟩ 5000 env.killerExitsAfter
      let g := waitForExit child 7000 env.exitsAfterGraceful
      if g.1.exitCode = none ∧ g.1.killed = false then
        let c3 := (Child.kill g.1).1
        let k := waitForExit c3 2000 env.exitsAfterKill
        ⟨true, cleared, [Ev.spawnTaskkill child.pid, Ev.sigkill child.pid],
          tk.2 + g.2 + k.2⟩
      else
        ⟨true, cleared, [Ev.spawnTaskkill child.pid], tk.2 + g.2⟩
    else
      if env.killThrows then ⟨false, cleared, [], 0⟩
      else
        let c1 := (Child.kill child).1
        let g := waitForExit c1 7000 env.exitsAfterGraceful
        if g.1.exitCode = none ∧ g.1.killed = false then
          let c3 := (Child.kill g.1).1
          let k := waitForExit c3 2000 env.exitsAfterKill
          ⟨true, cleared, [Ev.sigterm child.pid, Ev.sigkill child.pid],
            g.2 + k.2⟩
        else
          ⟨true, cleared, [Ev.sigterm child.pid], g.2⟩

/-- C6: `terminate` on POSIX never escalates and never waits.  At the failing
input — a live tracked child whose SIGTERM is delivered successfully but which
ignores it and never exits — `stopAgentProcess` sends SIGTERM, then
`waitForExit(child, 7000)` resolves immediately (0ms elapsed) because
`child.killed` was set by the successful `kill`, and the
`exitCode === null && !child.killed` guard skips the SIGKILL escalation; the
call reports success with the process still alive.  The claim (grace wait of
up to 7s, then forceful kill plus 2s wait) describes the intended behavior;
the `child.killed` tests at lines 336 and 381 make it unreachable on POSIX. -/
theorem stopAgentProcess_skips_escalation :
    stopAgentProcess Platform.posix ⟨false, 77, none, none, none⟩
        ⟨some ⟨1, none, false⟩, true, "http://127.0.0.1:9108", false,
          ⟨"127.0.0.1:9108", true⟩⟩ =
      ⟨true, ⟨none, false, "http://127.0.0.1:9108", false, ⟨"127.0.0.1:9108", true⟩⟩,
        [Ev.sigterm 1], 0⟩ ∧
    Ev.sigkill 1 ∉ (stopAgentProcess Platform.posix ⟨false, 77, none, none, none⟩
        ⟨some ⟨1, none, false⟩, true, "http://127.0.0.1:9108", false,
          ⟨"127.0.0.1:9108", true⟩⟩).trace := by
  constructor
  · decide
  · decide

/-! ### Health probe (`waitForBackendReady`, main.js lines 396-417)

The loop polls `GET <baseUrl>/healthz`; iteration `n` begins at `150*n` ms
(the fetch itself is modelled as instantaneous and each iteration ends with a
150ms sleep), and runs while the elapsed time is below the timeout.  The
oracle `exitedAt n` tells whether `child.exitCode !== null` at iteration `n`;
`respAt n` is the fetch outcome: `none` = network error thrown, `some b` =
response with `ok = b`. -/

def healthTickMs : Nat := 150

/-- Number of loop iterations before the `Date.now() - startedAt < timeoutMs`
guard fails. -/
def healthIterations (timeoutMs : Nat) : Nat :=
  (timeoutMs + healthTickMs - 1) / healthTickMs

/-- The polling loop; returns readiness and the number of fetch attempts. -/
def waitForBackendReadyAux (exitedAt : Nat → Bool) (respAt : Nat → Option Bool) :
    Nat → Nat → Bool × Nat
  | 0, _ => (false, 0)
  | fuel + 1, n =>
    if exitedAt n then (false, 0)
    else
      match respAt n with
      | some true => (true, 1)
      | some false =>
        let r := waitForBackendReadyAux exitedAt respAt fuel (n + 1)
        (r.1, r.2 + 1)
      | none =>
        let r := waitForBackendReadyAux exitedAt respAt fuel (n + 1)
        (r.1, r.2 + 1)

/-- `waitForBackendReady(baseUrl, child, timeoutMs = 30000)`: `childPresent`
models the `!child` test (the child reference is fixed for the whole call). -/
def waitForBackendReady (childPresent : Bool) (exitedAt : Nat → Bool)
    (respAt : Nat → Option Bool) (timeoutMs : Nat) : Bool × Nat :=
  if childPresent then
    waitForBackendReadyAux exitedAt respAt (healthIterations timeoutMs) 0
  else (false, 0)

lemma waitForBackendReadyAux_true_iff (exitedAt : Nat → Bool)
    (respAt : Nat → Option Bool) :
    ∀ fuel n, (waitForBackendReadyAux exitedAt respAt fuel n).1 = true ↔
      ∃ k, k < fuel ∧ respAt (n + k) = some true ∧
        ∀ j, j ≤ k → exitedAt (n + j) = false := by
  intro fuel
  induction fuel with
  | zero => intro n; simp [waitForBackendReadyAux]
  | succ fuel ih =>
    intro n
    by_cases he : exitedAt n = true
    · simp only [waitForBackendReadyAux, he, if_true]
      constructor
      · intro h; exact absurd h (by simp)
      · rintro ⟨k, _, _, hex⟩
        have := hex 0 (Nat.zero_le k)
        rw [Nat.add_zero] at this
        rw [this] at he
        exact absurd he (by simp)
    · have he' : exitedAt n = false := by
        cases hv : exitedAt n
        · rfl
        · exact absurd hv he
      cases hr : respAt n with
      | some b =>
        cases b
        · simp only [waitForBackendReadyAux, he', Bool.false_eq_true, if_false, hr]
          constructor
          · intro h
            obtain ⟨k, hk, hresp, hex⟩ := (ih (n + 1)).mp h
            refine ⟨k + 1, by omega, ?_, ?_⟩
            · have harith : n + (k + 1) = n + 1 + k := by omega
              rw [harith]; exact hresp
            · intro j hj
              cases j with
              | zero => simpa using he'
              | succ j =>
                have harith : n + (j + 1) = n + 1 + j := by omega
                rw [harith]; exact hex j (by omega)
          · rintro ⟨k, hk, hresp, hex⟩
            cases k with
            | zero => rw [Nat.add_zero] at hresp; rw [hresp] at hr; cases hr
            | succ k =>
              apply (ih (n + 1)).mpr
              refine ⟨k, by omega, ?_, ?_⟩
              · have harith : n + 1 + k = n + (k + 1) := by omega
                rw [harith]; exact hresp
              · intro j hj
                have harith : n + 1 + j = n + (j + 1) := by omega
                rw [harith]; exact hex (j + 1) (by omega)
        · simp only [waitForBackendReadyAux, he', Bool.false_eq_true, if_false, hr]
          constructor
          · intro _
            exact ⟨0, by omega, by simpa using hr, fun j hj => by
              have : j = 0 := Nat.le_zero.mp hj
              rw [this]; simpa using he'⟩
          · intro _; trivial
      | none =>
        simp only [waitForBackendReadyAux, he', Bool.false_eq_true, if_false, hr]
        constructor
        · intro h
          obtain ⟨k, hk, hresp, hex⟩ := (ih (n + 1)).mp h
          refine ⟨k + 1, by omega, ?_, ?_⟩
          · have harith : n + (k + 1) = n + 1 + k := by omega
            rw [harith]; exact hresp
          · intro j hj
            cases j with
            | zero => simpa using he'
            | succ j =>
              have harith : n + (j + 1) = n + 1 + j := by omega
              rw [harith]; exact hex j (by omega)
        · rintro ⟨k, hk, hresp, hex⟩
          cases k with
          | zero => rw [Nat.add_zero] at hresp; rw [hresp] at hr; cases hr
          | succ k =>
            apply (ih (n + 1)).mpr
            refine ⟨k, by omega, ?_, ?_⟩
            · have harith : n + 1 + k = n + (k + 1) := by omega
              rw [harith]; exact hresp
            · intro j hj
              have harith : n + 1 + j = n + (j + 1) := by omega
              rw [harith]; exact hex (j + 1) (by omega)

lemma waitForBackendReadyAux_dead (exitedAt : Nat → Bool) (respAt : Nat → Option Bool) :
    ∀ m fuel n, m < fuel → (∀ j, j < m → exitedAt (n + j) = false) →
      exitedAt (n + m) = true → (∀ j, j < m → respAt (n + j) ≠ some true) →
      waitForBackendReadyAux exitedAt respAt fuel n = (false, m) := by
  intro m
  induction m with
  | zero =>
    intro fuel n hf _ hx _
    cases fuel with
    | zero => omega
    | succ fuel =>
      rw [Nat.add_zero] at hx
      simp [waitForBackendReadyAux, hx]
  | succ m ih =>
    intro fuel n hf hex hx hresp
    cases fuel with
    | zero => omega
    | succ fuel =>
      have he0 : exitedAt n = false := by simpa using hex 0 (by omega)
      have hr0 : respAt n ≠ some true := by simpa using hresp 0 (by omega)
      have hrec : waitForBackendReadyAux exitedAt respAt fuel (n + 1) = (false, m) := by
        refine ih fuel (n + 1) (by omega) ?_ ?_ ?_
        · intro j hj
          have harith : n + 1 + j = n + (j + 1) := by omega
          rw [harith]; exact hex (j + 1) (by omega)
        · have harith : n + 1 + m = n + (m + 1) := by omega
          rw [harith]; exact hx
        · intro j hj
          have harith : n + 1 + j = n + (j + 1) := by omega
          rw [harith]; exact hresp (j + 1) (by omega)
      cases hr : respAt n with
      | none => simp [waitForBackendReadyAux, he0, hr, hrec]
      | some b =>
        cases b
        · simp [waitForBackendReadyAux, he0, hr, hrec]
        · exact absurd hr hr0

lemma waitForBackendReadyAux_mask (exitedAt : Nat → Bool) (respAt : Nat → Option Bool) :
    ∀ fuel n, waitForBackendReadyAux exitedAt
        (fun k => match respAt k with | none => some false | some b => some b) fuel n =
      waitForBackendReadyAux exitedAt respAt fuel n := by
  intro fuel
  induction fuel with
  | zero => intro n; rfl
  | succ fuel ih =>
    intro n
    by_cases he : exitedAt n = true
    · simp [waitForBackendReadyAux, he]
    · have he' : exitedAt n = false := by
        cases hv : exitedAt n
        · rfl
        · exact absurd hv he
      cases hr : respAt n with
      | none => simp [waitForBackendReadyAux, he', hr, ih]
      | some b => cases b <;> simp [waitForBackendReadyAux, he', hr, ih]

lemma waitForBackendReadyAux_fetch_le (exitedAt : Nat → Bool)
    (respAt : Nat → Option Bool) :
    ∀ fuel n, (waitForBackendReadyAux exitedAt respAt fuel n).2 ≤ fuel := by
  intro fuel
  induction fuel with
  | zero => intro n; simp [waitForBackendReadyAux]
  | succ fuel ih =>
    intro n
    by_cases he : exitedAt n = true
    · simp [waitForBackendReadyAux, he]
    · have he' : exitedAt n = false := by
        cases hv : exitedAt n
        · rfl
        · exact absurd hv he
      cases hr : respAt n with
      | none =>
        simp only [waitForBackendReadyAux, he', Bool.false_eq_true, if_false, hr]
        exact Nat.succ_le_succ (ih (n + 1))
      | some b =>
        cases b
        · simp only [waitForBackendReadyAux, he', Bool.false_eq_true, if_false, hr]
          exact Nat.succ_le_succ (ih (n + 1))
        · simp only [waitForBackendReadyAux, he', Bool.false_eq_true, if_false, hr]
          exact Nat.succ_le_succ (Nat.zero_le fuel)

/-- C5: for every environment, the health probe polls at the fixed 150ms tick
(a 30s timeout gives exactly 200 polls) and it returns `true` exactly when
some poll within the timeout budget gets a successful response and the
process was not observed dead at that poll or any earlier one — so a
successful response (with the process alive) makes it return `true`, and if
the budget is exhausted without such a success it returns `false`; once the
process is observed dead (first death at poll `m`, no earlier success) it
returns `false` making no further fetches; a network error during a poll
behaves exactly like a not-yet-ready response; and the number of fetches
never exceeds the budget — process death and timeout exhaustion are the only
ways it returns `false`. -/
theorem waitForBackendReady_spec (exitedAt : Nat → Bool) (respAt : Nat → Option Bool)
    (timeoutMs : Nat) :
    ((waitForBackendReady true exitedAt respAt timeoutMs).1 = true ↔
      ∃ k, k < healthIterations timeoutMs ∧ respAt k = some true ∧
        ∀ j, j ≤ k → exitedAt j = false) ∧
    (∀ m, m < healthIterations timeoutMs →
      (∀ j, j < m → exitedAt j = false) → exitedAt m = true →
      (∀ j, j < m → respAt j ≠ some true) →
      waitForBackendReady true exitedAt respAt timeoutMs = (false, m)) ∧
    (∀ t, waitForBackendReady true exitedAt
        (fun k => match respAt k with | none => some false | some b => some b) t =
      waitForBackendReady true exitedAt respAt t) ∧
    (waitForBackendReady true exitedAt respAt timeoutMs).2 ≤
      healthIterations timeoutMs ∧
    healthIterations 30000 = 200 := by
  refine ⟨?_, ?_, ?_, ?_, rfl⟩
  · simpa [waitForBackendReady] using
      waitForBackendReadyAux_true_iff exitedAt respAt (healthIterations timeoutMs) 0
  · intro m hm hex hxm hresp
    simpa [waitForBackendReady] using
      waitForBackendReadyAux_dead exitedAt respAt m (healthIterations timeoutMs) 0 hm
        (by simpa using hex) (by simpa using hxm) (by simpa using hresp)
  · intro t
    simp [waitForBackendReady, waitForBackendReadyAux_mask]
  · simpa [waitForBackendReady] using
      waitForBackendReadyAux_fetch_le exitedAt respAt (healthIterations timeoutMs) 0

/-- Witness for C5, exercising three environments: a probe whose first poll
succeeds returns `true` (via the success characterization); a probe that
never gets a success and whose process never dies exhausts the 200-poll
budget and returns `false` (via the same characterization); and a process
dying at poll 2 with no prior success aborts with `false` after exactly 2
fetches (via the death conjunct). -/
theorem waitForBackendReady_spec_witness :
    (waitForBackendReady true (fun _ => false) (fun _ => some true) 30000).1 = true ∧
    (waitForBackendReady true (fun _ => false) (fun _ => some false) 30000).1 = false ∧
    waitForBackendReady true (fun n => Nat.ble 2 n) (fun _ => none) 30000 = (false, 2) :=
  ⟨(waitForBackendReady_spec (fun _ => false) (fun _ => some true) 30000).1.mpr
      ⟨0, by decide, rfl, fun _ _ => rfl⟩,
    by
      have h := (waitForBackendReady_spec (fun _ => false) (fun _ => some false) 30000).1
      cases hv : (waitForBackendReady true (fun _ => false)
          (fun _ => some false) 30000).1
      · rfl
      · obtain ⟨k, _, hk, _⟩ := h.mp hv
        exact absurd hk (by simp),
    (waitForBackendReady_spec (fun n => Nat.ble 2 n) (fun _ => none) 30000).2.1 2
      (by decide) (by decide) (by decide) (by decide)⟩

/-! ### ConfigStore (main.js lines 226-243 and 419-427) -/

/-- `setTelegramEnabledInConfig(configPath, enabled)`: read the document, set
`telegram.enabled` only when it differs, write back; any read or write
failure is swallowed and reported as `changed = false` (best effort). -/
def setTelegramEnabledInConfig (readOk writeOk : Bool) (target : Bool)
    (cfg : ConfigDoc) : ConfigDoc × Bool :=
  if readOk = false then (cfg, false)
  else if cfg.telegramEnabled = target then (cfg, false)
  else if writeOk then ({ cfg with telegramEnabled := target }, true)
  else (cfg, false)

/-- `readListenFromConfig(configPath)`: the configured listen string, or the
default on read failure or a falsy configured value. -/
def readListenFromConfig (readOk : Bool) (cfg : ConfigDoc) : String :=
  if readOk then (if cfg.listen = "" then "127.0.0.1:9108" else cfg.listen)
  else "127.0.0.1:9108"

/-! ### Managed start (main.js lines 313-332 and 429-449) -/

structure SpawnEnv where
  binExists : Bool
  pid : Nat
deriving Repr

/-- `spawnAgentProcess({binPath, configPath, telegramEnabled})`: launch the
binary when present on disk; otherwise throw when packaged, or fall back to
`cargo run` in development (also a spawn). -/
def spawnAgentProcess (packaged : Bool) (env : SpawnEnv) :
    Except String Child × List Ev :=
  if env.binExists then (Except.ok ⟨env.pid, none, false⟩, [Ev.spawn env.pid])
  else if packaged then (Except.error "Не найден исполняемый файл агента", [])
  else (Except.ok ⟨env.pid, none, false⟩, [Ev.spawn env.pid])

/-- World behavior for one `startAgentManaged` call. -/
structure StartEnv where
  syncReadOk : Bool
  syncWriteOk : Bool
  spawnEnv : SpawnEnv
  listenReadOk : Bool
  probeExitedAt : Nat → Bool
  probeRespAt : Nat → Option Bool
  stopEnv : StopEnv

structure StartResult where
  ok : Bool
  message : Option String
  baseUrl : String
deriving DecidableEq, Repr

structure StartOut where
  state : AgentState
  result : Except String StartResult
  trace : List Ev

/-- `startAgentManaged({binPath, configPath, telegramEnabled,
syncTelegramConfig})` (lines 429-449): best-effort config sync, spawn (a
throw is returned as `Except.error`, handled by each caller's catch), record
the child and the runtime flag, derive the base url, health-gate; on health
failure stop the just-spawned process before reporting. -/
def startAgentManaged (platform : Platform) (packaged : Bool) (env : StartEnv)
    (telegramEnabled : Bool) (syncTelegramConfig : Bool) (s : AgentState) :
    StartOut :=
  let s1 := if syncTelegramConfig then
      { s with cfg := (setTelegramEnabledInConfig env.syncReadOk env.syncWriteOk
          telegramEnabled s.cfg).1 }
    else s
  match spawnAgentProcess packaged env.spawnEnv with
  | (Except.error e, evs) => ⟨s1, Except.error e, evs⟩
  | (Except.ok child, evs) =>
    let s2 := { s1 with agentChild := some child,
                        telegramEnabledRuntime := telegramEnabled }
    let listen := readListenFromConfig env.listenReadOk s2.cfg
    let baseUrl := resolveBackendBaseUrl listen
    let s3 := { s2 with backendBaseUrlRuntime := baseUrl }
    let ready := (waitForBackendReady true env.probeExitedAt env.probeRespAt 30000).1
    if ready then ⟨s3, Except.ok ⟨true, none, baseUrl⟩, evs⟩
    else
      let st := stopAgentProcess platform env.stopEnv s3
      ⟨st.state,
        Except.ok ⟨false, some "Сервис не вышел в готовность (healthz)", baseUrl⟩,
        evs ++ st.trace⟩

/-! ### IPC operation handlers (main.js lines 499-593) -/

structure OpResult where
  ok : Bool
  message : String
deriving DecidableEq, Repr

/-- Body of `ipcMain.handle('agent:start')` (lines 499-526), as run inside
`withAgentOp`. -/
def agentStartBody (platform : Platform) (packaged : Bool) (env : StartEnv)
    (telegramEnabled : Bool) (s : AgentState) : AgentState × OpResult × List Ev :=
  if s.agentChild.isSome then (s, ⟨false, "Агент уже запущен"⟩, [])
  else
    match startAgentManaged platform packaged env telegramEnabled true s with
    | ⟨s1, Except.error e, evs⟩ =>
      ({ s1 with agentChild := none },
        ⟨false, "Не удалось запустить агент: " ++ e⟩, evs)
    | ⟨s1, Except.ok r, evs⟩ =>
      if r.ok then
        (s1, ⟨true, if telegramEnabled then "Сервис запущен с Telegram-ботом"
          else "Сервис запущен без Telegram-бота"⟩, evs)
      else (s1, ⟨false, r.message.getD ""⟩, evs)

/-- Body of `ipcMain.handle('agent:stop')` (lines 528-540). -/
def agentStopBody (platform : Platform) (env : StopEnv) (s : AgentState) :
    AgentState × OpResult × List Ev :=
  if s.agentChild = none then (s, ⟨false, "Агент не запущен"⟩, [])
  else
    let st := stopAgentProcess platform env s
    (st.state, ⟨true, "Агент остановлен"⟩, st.trace)

/-- World behavior for one `telegram:set-enabled` operation: the initial stop
and the up-to-two managed starts. -/
structure ToggleEnv where
  stop0 : StopEnv
  start1 : StartEnv
  start2 : StartEnv

/-- Body of `ipcMain.handle('telegram:set-enabled')` (lines 552-593): stop,
restart with the target flag, roll back to the previous flag on failure;
three distinct terminal reports (success, recoverable failure, double
failure), plus the catch-all for a thrown spawn error. -/
def telegramSetEnabledBody (platform : Platform) (packaged : Bool)
    (env : ToggleEnv) (enabled : Bool) (s : AgentState) :
    AgentState × OpResult × List Ev :=
  let targetEnabled := enabled
  let prevEnabled := s.telegramEnabledRuntime
  let st0 := stopAgentProcess platform env.stop0 s
  match startAgentManaged platform packaged env.start1 targetEnabled true st0.state with
  | ⟨s1, Except.error e, evs1⟩ =>
    (s1, ⟨false, "Ошибка переключения Telegram: " ++ e⟩, st0.trace ++ evs1)
  | ⟨s1, Except.ok started, evs1⟩ =>
    if started.ok then
      (s1, ⟨true, if targetEnabled then "Telegram-бот включен (сервис перезапущен)"
        else "Telegram-бот выключен (сервис перезапущен)"⟩, st0.trace ++ evs1)
    else
      match startAgentManaged platform packaged env.start2 prevEnabled true s1 with
      | ⟨s2, Except.error e, evs2⟩ =>
        (s2, ⟨false, "Ошибка переключения Telegram: " ++ e⟩,
          st0.trace ++ evs1 ++ evs2)
      | ⟨s2, Except.ok rollback, evs2⟩ =>
        if rollback.ok then
          (s2, ⟨false, "Не удалось переключить Telegram (" ++
            started.message.getD "" ++ "). Сервис восстановлен в прошлом режиме."⟩,
            st0.trace ++ evs1 ++ evs2)
        else
          (s2, ⟨false, "Не удалось переключить Telegram (" ++
            started.message.getD "" ++ ") и восстановить предыдущий режим."⟩,
            st0.trace ++ evs1 ++ evs2)

structure StatusR where
  running : Bool
  pid : Option Nat
  telegramEnabled : Bool
  baseUrl : String
  transitioning : Bool
deriving DecidableEq, Repr

/-- `ipcMain.handle('agent:status')` (lines 542-550): a pure read of the
module state, answered directly — unlike the lifecycle operations it is not
wrapped in `withAgentOp`, so it is never queued behind the serializer and
reflects the current state even while an operation executes. -/
def agentStatusHandler (s : AgentState) : StatusR :=
  ⟨s.agentChild.isSome, Option.map Child.pid s.agentChild,
    s.telegramEnabledRuntime, s.backendBaseUrlRuntime, s.agentTransitioning⟩

/-- `attachAgentLifecycle` exit listener (lines 356-363): fires when the
spawned child's process exits; clears `agentChild` and
`telegramEnabledRuntime` when the exited child is still the tracked one.
Object identity (`agentChild === child`) is modelled by pid equality (each
spawn in a run receives a fresh pid). -/
def agentExitFired (child : Child) (s : AgentState) : AgentState :=
  match s.agentChild with
  | some c =>
    if c.pid = child.pid then
      { s with agentChild := none, telegramEnabledRuntime := false }
    else s
  | none => s

/-! ### Operation serializer (`withAgentOp`, main.js lines 133-154) -/

/-- A lifecycle operation body submitted to `withAgentOp`: a state
transformer producing either a result or a rejection, plus its effects. -/
def OpBody : Type :=
  AgentState → AgentState × Except String OpResult × List Ev

/-- One `withAgentOp(fn)` execution: the promise chain installs the same
continuation for both the fulfilled and the rejected predecessor case, so the
body always runs; `agentTransitioning` is set before the body and cleared in
the `finally`. -/
def withAgentOpRun (body : OpBody) (s : AgentState) :
    AgentState × Except String OpResult × List Ev :=
  let s1 := { s with agentTransitioning := true }
  let r := body s1
  ({ r.1 with agentTransitioning := false }, r.2.1, r.2.2)

/-- Denotation of `agentOpChain`: submitted bodies run strictly one at a time
in submission order (`agentOpChain = run.catch(() => {})` keeps the chain
alive after a rejection, so later submissions still run). -/
def runChain (bodies : List OpBody) (s : AgentState) :
    AgentState × List (Except String OpResult) × List Ev :=
  match bodies with
  | [] => (s, [], [])
  | b :: rest =>
    let r := withAgentOpRun b s
    let w := runChain rest r.1
    (w.1, r.2.1 :: w.2.1, r.2.2 ++ w.2.2)

/-- The state each submitted body observes on entry. -/
def chainEntryStates (bodies : List OpBody) (s : AgentState) : List AgentState :=
  match bodies with
  | [] => []
  | b :: rest =>
    { s with agentTransitioning := true } ::
      chainEntryStates rest (withAgentOpRun b s).1

/-- The `agent:start` operation as submitted to `withAgentOp` (its body
catches every failure, so it never rejects). -/
def agentStartOp (platform : Platform) (packaged : Bool) (env : StartEnv)
    (telegramEnabled : Bool) : OpBody := fun s =>
  let r := agentStartBody platform packaged env telegramEnabled s
  (r.1, Except.ok r.2.1, r.2.2)

/-- The `agent:stop` operation as submitted to `withAgentOp`. -/
def agentStopOp (platform : Platform) (env : StopEnv) : OpBody := fun s =>
  let r := agentStopBody platform env s
  (r.1, Except.ok r.2.1, r.2.2)

/-- The `telegram:set-enabled` operation as submitted to `withAgentOp`. -/
def telegramSetEnabledOp (platform : Platform) (packaged : Bool)
    (env : ToggleEnv) (enabled : Bool) : OpBody := fun s =>
  let r := telegramSetEnabledBody platform packaged env enabled s
  (r.1, Except.ok r.2.1, r.2.2)

/-! ### Helper lemmas about the operations -/

lemma stopAgentProcess_some (platform : Platform) (env : StopEnv) (s : AgentState)
    (c : Child) (hc : s.agentChild = some c) :
    (stopAgentProcess platform env s).state =
      { s with agentChild := none, telegramEnabledRuntime := false } := by
  obtain ⟨ac, rt, bu, tfl, cfg⟩ := s
  change ac = some c at hc
  subst hc
  unfold stopAgentProcess
  dsimp only
  split_ifs <;> rfl

lemma stopAgentProcess_child_none (platform : Platform) (env : StopEnv)
    (s : AgentState) :
    (stopAgentProcess platform env s).state.agentChild = none := by
  cases hc : s.agentChild with
  | none =>
    have hstate : (stopAgentProcess platform env s).state = s := by
      unfold stopAgentProcess
      rw [hc]
    rw [hstate, hc]
  | some c => rw [stopAgentProcess_some platform env s c hc]

lemma stopAgentProcess_trace_term (platform : Platform) (env : StopEnv)
    (s : AgentState) (c : Child) (hc : s.agentChild = some c)
    (hk : env.killThrows = false) :
    Ev.sigterm c.pid ∈ (stopAgentProcess platform env s).trace ∨
      Ev.spawnTaskkill c.pid ∈ (stopAgentProcess platform env s).trace := by
  obtain ⟨ac, rt, bu, tfl, cfg⟩ := s
  change ac = some c at hc
  subst hc
  unfold stopAgentProcess
  dsimp only
  rw [hk]
  split_ifs <;>
    first
      | exact Or.inr (List.mem_cons_self _ _)
      | exact Or.inl (List.mem_cons_self _ _)
      | simp_all

lemma waitForBackendReady_false_of_no_success (exitedAt : Nat → Bool)
    (respAt : Nat → Option Bool) (t : Nat) (h : ∀ n, respAt n ≠ some true) :
    (waitForBackendReady true exitedAt respAt t).1 = false := by
  cases hv : (waitForBackendReady true exitedAt respAt t).1
  · rfl
  · exfalso
    have hv2 : (waitForBackendReadyAux exitedAt respAt (healthIterations t) 0).1 = true := by
      simpa [waitForBackendReady] using hv
    obtain ⟨k, _, hk, _⟩ :=
      (waitForBackendReadyAux_true_iff exitedAt respAt (healthIterations t) 0).mp hv2
    exact h (0 + k) hk

lemma waitForBackendReady_true_of_first (exitedAt : Nat → Bool)
    (respAt : Nat → Option Bool) (h1 : respAt 0 = some true)
    (h2 : exitedAt 0 = false) :
    (waitForBackendReady true exitedAt respAt 30000).1 = true := by
  have : (waitForBackendReadyAux exitedAt respAt (healthIterations 30000) 0).1 = true := by
    apply (waitForBackendReadyAux_true_iff exitedAt respAt (healthIterations 30000) 0).mpr
    refine ⟨0, by decide, by simpa using h1, ?_⟩
    intro j hj
    have hj0 : j = 0 := Nat.le_zero.mp hj
    rw [hj0]
    simpa using h2
  simpa [waitForBackendReady] using this

lemma setTelegramEnabledInConfig_sets (target : Bool) (cfg : ConfigDoc) :
    (setTelegramEnabledInConfig true true target cfg).1.telegramEnabled = target := by
  unfold setTelegramEnabledInConfig
  by_cases h : cfg.telegramEnabled = target
  · simp [h]
  · simp [h]

/-- Successful managed start: full description of the output. -/
lemma startAgentManaged_success (platform : Platform) (packaged : Bool)
    (env : StartEnv) (tg sync : Bool) (s : AgentState)
    (hbin : env.spawnEnv.binExists = true)
    (hresp0 : env.probeRespAt 0 = some true)
    (hex0 : env.probeExitedAt 0 = false) :
    startAgentManaged platform packaged env tg sync s =
      ⟨{ s with
          cfg := if sync then
              (setTelegramEnabledInConfig env.syncReadOk env.syncWriteOk tg s.cfg).1
            else s.cfg,
          agentChild := some ⟨env.spawnEnv.pid, none, false⟩,
          telegramEnabledRuntime := tg,
          backendBaseUrlRuntime := resolveBackendBaseUrl (readListenFromConfig
            env.listenReadOk (if sync then
              (setTelegramEnabledInConfig env.syncReadOk env.syncWriteOk tg s.cfg).1
            else s.cfg)) },
        Except.ok ⟨true, none, resolveBackendBaseUrl (readListenFromConfig
          env.listenReadOk (if sync then
            (setTelegramEnabledInConfig env.syncReadOk env.syncWriteOk tg s.cfg).1
          else s.cfg))⟩,
        [Ev.spawn env.spawnEnv.pid]⟩ := by
  have hready := waitForBackendReady_true_of_first env.probeExitedAt env.probeRespAt
    hresp0 hex0
  unfold startAgentManaged spawnAgentProcess
  rw [hbin]
  simp only [if_true, hready]
  cases sync <;> rfl

lemma stopAgentProcess_trace_term_append (platform : Platform) (env : StopEnv)
    (s : AgentState) (c : Child) (hc : s.agentChild = some c)
    (hk : env.killThrows = false) (pre : List Ev) :
    Ev.sigterm c.pid ∈ pre ++ (stopAgentProcess platform env s).trace ∨
      Ev.spawnTaskkill c.pid ∈ pre ++ (stopAgentProcess platform env s).trace :=
  Or.imp (fun hm => List.mem_append_right pre hm)
    (fun hm => List.mem_append_right pre hm)
    (stopAgentProcess_trace_term platform env s c hc hk)

/-- Managed start whose health gate fails: output description. -/
lemma startAgentManaged_health_failure (platform : Platform) (packaged : Bool)
    (env : StartEnv) (tg sync : Bool) (s : AgentState)
    (hbin : env.spawnEnv.binExists = true)
    (hresp : ∀ n, env.probeRespAt n ≠ some true)
    (hk : env.stopEnv.killThrows = false) :
    ∃ r : StartResult,
      (startAgentManaged platform packaged env tg sync s).result = Except.ok r ∧
      r.ok = false ∧
      r.message = some "Сервис не вышел в готовность (healthz)" ∧
      (startAgentManaged platform packaged env tg sync s).state.agentChild = none ∧
      (startAgentManaged platform packaged env tg sync s).state.telegramEnabledRuntime
        = false ∧
      (startAgentManaged platform packaged env tg sync s).state.cfg =
        (if sync then
          (setTelegramEnabledInConfig env.syncReadOk env.syncWriteOk tg s.cfg).1
        else s.cfg) ∧
      (startAgentManaged platform packaged env tg sync s).trace.head? =
        some (Ev.spawn env.spawnEnv.pid) ∧
      (Ev.sigterm env.spawnEnv.pid ∈
          (startAgentManaged platform packaged env tg sync s).trace ∨
        Ev.spawnTaskkill env.spawnEnv.pid ∈
          (startAgentManaged platform packaged env tg sync s).trace) := by
  have hready := waitForBackendReady_false_of_no_success env.probeExitedAt
    env.probeRespAt 30000 hresp
  unfold startAgentManaged spawnAgentProcess
  rw [hbin, hready]
  cases sync <;>
    simp only [eq_self_iff_true, if_true, Bool.false_eq_true, if_false] <;>
    refine ⟨_, rfl, rfl, rfl, ?_, ?_, ?_, rfl, ?_⟩ <;>
    first
      | rw [stopAgentProcess_some _ _ _ ⟨env.spawnEnv.pid, none, false⟩ rfl]
      | (refine stopAgentProcess_trace_term_append _ _ _
          ⟨env.spawnEnv.pid, none, false⟩ ?_ hk _
         rfl)

/-! ### The persisted-vs-runtime feature flag (claim C1) -/

/-- The convergence invariant: whenever a child is tracked, the persisted
`telegram.enabled` agrees with `telegramEnabledRuntime`. -/
def featureInv (s : AgentState) : Prop :=
  s.agentChild.isSome = true → s.cfg.telegramEnabled = s.telegramEnabledRuntime

lemma startAgentManaged_featureInv (platform : Platform) (packaged : Bool)
    (env : StartEnv) (tg : Bool) (s : AgentState)
    (hidle : s.agentChild = none)
    (hr : env.syncReadOk = true) (hw : env.syncWriteOk = true) :
    featureInv (startAgentManaged platform packaged env tg true s).state := by
  unfold startAgentManaged spawnAgentProcess
  rw [hr, hw]
  by_cases hb : env.spawnEnv.binExists = true
  · rw [hb]
    simp only [eq_self_iff_true, if_true]
    by_cases hready :
        (waitForBackendReady true env.probeExitedAt env.probeRespAt 30000).1 = true
    · rw [hready]
      simp only [eq_self_iff_true, if_true]
      intro _
      exact setTelegramEnabledInConfig_sets tg s.cfg
    · have hready2 :
          (waitForBackendReady true env.probeExitedAt env.probeRespAt 30000).1 = false := by
        cases hv : (waitForBackendReady true env.probeExitedAt env.probeRespAt 30000).1
        · rfl
        · exact absurd hv hready
      rw [hready2]
      simp only [Bool.false_eq_true, if_false]
      intro h
      rw [stopAgentProcess_child_none] at h
      exact absurd h (by simp)
  · have hb2 : env.spawnEnv.binExists = false := by
      cases hv : env.spawnEnv.binExists
      · rfl
      · exact absurd hv hb
    rw [hb2]
    simp only [Bool.false_eq_true, if_false]
    by_cases hp : packaged = true
    · rw [hp]
      simp only [eq_self_iff_true, if_true]
      intro h
      rw [hidle] at h
      exact absurd h (by simp)
    · have hp2 : packaged = false := by
        cases hv : packaged
        · rfl
        · exact absurd hv hp
      rw [hp2]
      simp only [Bool.false_eq_true, if_false]
      by_cases hready :
          (waitForBackendReady true env.probeExitedAt env.probeRespAt 30000).1 = true
      · rw [hready]
        simp only [eq_self_iff_true, if_true]
        intro _
        exact setTelegramEnabledInConfig_sets tg s.cfg
      · have hready2 :
            (waitForBackendReady true env.probeExitedAt env.probeRespAt 30000).1 = false := by
          cases hv : (waitForBackendReady true env.probeExitedAt env.probeRespAt 30000).1
          · rfl
          · exact absurd hv hready
        rw [hready2]
        simp only [Bool.false_eq_true, if_false]
        intro h
        rw [stopAgentProcess_child_none] at h
        exact absurd h (by simp)

lemma startAgentManaged_not_ok_child_none (platform : Platform) (packaged : Bool)
    (env : StartEnv) (tg sync : Bool) (s : AgentState) (r : StartResult)
    (hres : (startAgentManaged platform packaged env tg sync s).result = Except.ok r)
    (hok : r.ok = false) :
    (startAgentManaged platform packaged env tg sync s).state.agentChild = none := by
  unfold startAgentManaged spawnAgentProcess at hres ⊢
  by_cases hb : env.spawnEnv.binExists = true
  · rw [hb] at hres ⊢
    simp only [eq_self_iff_true, if_true] at hres ⊢
    by_cases hready :
        (waitForBackendReady true env.probeExitedAt env.probeRespAt 30000).1 = true
    · rw [hready] at hres
      simp only [eq_self_iff_true, if_true] at hres
      have hr2 : r = ⟨true, none, _⟩ := (Except.ok.injEq _ _).mp hres.symm
      rw [hr2] at hok
      exact absurd hok (by simp)
    · have hready2 :
          (waitForBackendReady true env.probeExitedAt env.probeRespAt 30000).1 = false := by
        cases hv : (waitForBackendReady true env.probeExitedAt env.probeRespAt 30000).1
        · rfl
        · exact absurd hv hready
      rw [hready2]
      simp only [Bool.false_eq_true, if_false]
      exact stopAgentProcess_child_none _ _ _
  · have hb2 : env.spawnEnv.binExists = false := by
      cases hv : env.spawnEnv.binExists
      · rfl
      · exact absurd hv hb
    rw [hb2] at hres ⊢
    simp only [Bool.false_eq_true, if_false] at hres ⊢
    by_cases hp : packaged = true
    · rw [hp] at hres
      simp only [eq_self_iff_true, if_true] at hres
      exact absurd hres (by simp)
    · have hp2 : packaged = false := by
        cases hv : packaged
        · rfl
        · exact absurd hv hp
      rw [hp2] at hres ⊢
      simp only [Bool.false_eq_true, if_false] at hres ⊢
      by_cases hready :
          (waitForBackendReady true env.probeExitedAt env.probeRespAt 30000).1 = true
      · rw [hready] at hres
        simp only [eq_self_iff_true, if_true] at hres
        have hr2 : r = ⟨true, none, _⟩ := (Except.ok.injEq _ _).mp hres.symm
        rw [hr2] at hok
        exact absurd hok (by simp)
      · have hready2 :
            (waitForBackendReady true env.probeExitedAt env.probeRespAt 30000).1 = false := by
          cases hv : (waitForBackendReady true env.probeExitedAt env.probeRespAt 30000).1
          · rfl
          · exact absurd hv hready
        rw [hready2]
        simp only [Bool.false_eq_true, if_false]
        exact stopAgentProcess_child_none _ _ _

lemma agentStartBody_featureInv (platform : Platform) (packaged : Bool)
    (env : StartEnv) (tg : Bool) (s : AgentState)
    (hs : featureInv s) (hr : env.syncReadOk = true) (hw : env.syncWriteOk = true) :
    featureInv (agentStartBody platform packaged env tg s).1 := by
  unfold agentStartBody
  cases hc : s.agentChild with
  | some c =>
    simp only [hc, Option.isSome_some, if_true]
    exact hs
  | none =>
    simp only [hc, Option.isSome_none, Bool.false_eq_true, if_false]
    have hInv := startAgentManaged_featureInv platform packaged env tg s hc hr hw
    cases hout : startAgentManaged platform packaged env tg true s with
    | mk st res tr =>
      rw [hout] at hInv
      cases res with
      | error e =>
        intro h
        exact absurd h (by simp)
      | ok r =>
        cases hok : r.ok <;> simp only [hok, Bool.false_eq_true, if_false, if_true] <;>
          exact hInv

lemma agentStopBody_featureInv (platform : Platform) (env : StopEnv)
    (s : AgentState) (hs : featureInv s) :
    featureInv (agentStopBody platform env s).1 := by
  unfold agentStopBody
  by_cases hc : s.agentChild = none
  · rw [if_pos hc]
    exact hs
  · rw [if_neg hc]
    intro h
    rw [stopAgentProcess_child_none] at h
    exact absurd h (by simp)

lemma telegramSetEnabledBody_featureInv (platform : Platform) (packaged : Bool)
    (env : ToggleEnv) (en : Bool) (s : AgentState)
    (h3 : env.start1.syncReadOk = true) (h4 : env.start1.syncWriteOk = true)
    (h5 : env.start2.syncReadOk = true) (h6 : env.start2.syncWriteOk = true) :
    featureInv (telegramSetEnabledBody platform packaged env en s).1 := by
  unfold telegramSetEnabledBody
  dsimp only
  have hstop : (stopAgentProcess platform env.stop0 s).state.agentChild = none :=
    stopAgentProcess_child_none _ _ _
  have hInv1 := startAgentManaged_featureInv platform packaged env.start1 en
    (stopAgentProcess platform env.stop0 s).state hstop h3 h4
  cases hout1 : startAgentManaged platform packaged env.start1 en true
      (stopAgentProcess platform env.stop0 s).state with
  | mk s1 res1 tr1 =>
    rw [hout1] at hInv1
    cases res1 with
    | error e => exact hInv1
    | ok started =>
      dsimp only
      cases hok : started.ok with
      | true =>
        simp only [eq_self_iff_true, if_true]
        exact hInv1
      | false =>
        simp only [Bool.false_eq_true, if_false]
        have hchild1 : s1.agentChild = none := by
          have h := startAgentManaged_not_ok_child_none platform packaged env.start1
            en true (stopAgentProcess platform env.stop0 s).state started
            (by rw [hout1]) hok
          rw [hout1] at h
          exact h
        have hInv2 := startAgentManaged_featureInv platform packaged env.start2
          s.telegramEnabledRuntime s1 hchild1 h5 h6
        cases hout2 : startAgentManaged platform packaged env.start2
            s.telegramEnabledRuntime true s1 with
        | mk s2 res2 tr2 =>
          rw [hout2] at hInv2
          cases res2 with
          | error e => exact hInv2
          | ok rollback =>
            dsimp only
            cases hok2 : rollback.ok <;>
              simp only [eq_self_iff_true, Bool.false_eq_true, if_false, if_true] <;>
              exact hInv2

/-- C1 counterexample: `agent:stop` is a completed lifecycle operation (the
serializer has cleared `transitioning`) after which the persisted
`telegram.enabled` is still `true` while `AgentState.featureEnabled`
(`telegramEnabledRuntime`) has been reset to `false`: the two values differ
although no operation is executing. -/
theorem featureEnabled_divergence_after_stop :
    ((withAgentOpRun (agentStopOp Platform.posix ⟨false, 0, none, none, none⟩)
        ⟨some ⟨5, none, false⟩, true, "http://127.0.0.1:9108", false,
          ⟨"127.0.0.1:9108", true⟩⟩).1.agentTransitioning = false) ∧
    ((withAgentOpRun (agentStopOp Platform.posix ⟨false, 0, none, none, none⟩)
        ⟨some ⟨5, none, false⟩, true, "http://127.0.0.1:9108", false,
          ⟨"127.0.0.1:9108", true⟩⟩).1.cfg.telegramEnabled = true) ∧
    ((withAgentOpRun (agentStopOp Platform.posix ⟨false, 0, none, none, none⟩)
        ⟨some ⟨5, none, false⟩, true, "http://127.0.0.1:9108", false,
          ⟨"127.0.0.1:9108", true⟩⟩).1.telegramEnabledRuntime = false) ∧
    ((withAgentOpRun (agentStopOp Platform.posix ⟨false, 0, none, none, none⟩)
        ⟨some ⟨5, none, false⟩, true, "http://127.0.0.1:9108", false,
          ⟨"127.0.0.1:9108", true⟩⟩).2.1 = Except.ok ⟨true, "Агент остановлен"⟩) :=
  ⟨rfl, rfl, rfl, rfl⟩

/-- C1 (amended): provided the configuration reads and writes succeed, every
completed lifecycle operation (`agent:start`, `agent:stop`,
`telegram:set-enabled`) preserves the invariant "whenever the agent is
running, the persisted `telegram.enabled` equals
`AgentState.featureEnabled`"; an operation that leaves the agent stopped
resets the runtime flag to `false` while the persisted flag keeps its last
written value, so the two may legitimately differ while stopped. -/
theorem featureEnabled_convergence (platform : Platform) (packaged : Bool)
    (envS : StartEnv) (envP : StopEnv) (envT : ToggleEnv) (tg en : Bool)
    (s : AgentState) (hs : featureInv s)
    (h1 : envS.syncReadOk = true) (h2 : envS.syncWriteOk = true)
    (h3 : envT.start1.syncReadOk = true) (h4 : envT.start1.syncWriteOk = true)
    (h5 : envT.start2.syncReadOk = true) (h6 : envT.start2.syncWriteOk = true) :
    featureInv (withAgentOpRun (agentStartOp platform packaged envS tg) s).1 ∧
    featureInv (withAgentOpRun (agentStopOp platform envP) s).1 ∧
    featureInv (withAgentOpRun (telegramSetEnabledOp platform packaged envT en) s).1 :=
  ⟨agentStartBody_featureInv platform packaged envS tg
      { s with agentTransitioning := true } hs h1 h2,
    agentStopBody_featureInv platform envP { s with agentTransitioning := true } hs,
    telegramSetEnabledBody_featureInv platform packaged envT en
      { s with agentTransitioning := true } h3 h4 h5 h6⟩

/-- Witness for C1 (amended) at a concrete running state and reliable
configuration IO. -/
theorem featureEnabled_convergence_witness :
    featureInv (withAgentOpRun (agentStartOp Platform.posix false
      ⟨true, true, ⟨true, 42⟩, true, fun _ => false, fun _ => some true,
        ⟨false, 0, none, none, none⟩⟩ true)
      ⟨some ⟨7, none, false⟩, true, "http://127.0.0.1:9108", false,
        ⟨"127.0.0.1:9108", true⟩⟩).1 ∧
    featureInv (withAgentOpRun (agentStopOp Platform.posix
      ⟨false, 0, none, none, none⟩)
      ⟨some ⟨7, none, false⟩, true, "http://127.0.0.1:9108", false,
        ⟨"127.0.0.1:9108", true⟩⟩).1 ∧
    featureInv (withAgentOpRun (telegramSetEnabledOp Platform.posix false
      ⟨⟨false, 0, none, none, none⟩,
        ⟨true, true, ⟨true, 42⟩, true, fun _ => false, fun _ => some true,
          ⟨false, 0, none, none, none⟩⟩,
        ⟨true, true, ⟨true, 43⟩, true, fun _ => false, fun _ => some true,
          ⟨false, 0, none, none, none⟩⟩⟩ true)
      ⟨some ⟨7, none, false⟩, true, "http://127.0.0.1:9108", false,
        ⟨"127.0.0.1:9108", true⟩⟩).1 :=
  featureEnabled_convergence Platform.posix false
    ⟨true, true, ⟨true, 42⟩, true, fun _ => false, fun _ => some true,
      ⟨false, 0, none, none, none⟩⟩
    ⟨false, 0, none, none, none⟩
    ⟨⟨false, 0, none, none, none⟩,
      ⟨true, true, ⟨true, 42⟩, true, fun _ => false, fun _ => some true,
        ⟨false, 0, none, none, none⟩⟩,
      ⟨true, true, ⟨true, 43⟩, true, fun _ => false, fun _ => some true,
        ⟨false, 0, none, none, none⟩⟩⟩
    true true
    ⟨some ⟨7, none, false⟩, true, "http://127.0.0.1:9108", false,
      ⟨"127.0.0.1:9108", true⟩⟩
    (fun _ => rfl) rfl rfl rfl rfl rfl rfl

/-! ### Guarded start (claim C9) and health-failure start (claim C4) -/

/-- C9: `agent:start` invoked while the agent is already running returns
`{ok:false}`, leaves the state (including the single tracked child)
unchanged, and performs no spawn: the operation's trace is empty, so the
spawn call count stays where it was and no second live child can appear. -/
theorem agentStart_already_running (platform : Platform) (packaged : Bool)
    (env : StartEnv) (tg : Bool) (s : AgentState) (c : Child)
    (h : s.agentChild = some c) :
    agentStartBody platform packaged env tg s =
      (s, ⟨false, "Агент уже запущен"⟩, []) := by
  unfold agentStartBody
  rw [h]
  rfl

/-- Witness for C9 at a concrete running state. -/
theorem agentStart_already_running_witness :
    agentStartBody Platform.posix false
        ⟨true, true, ⟨true, 7⟩, true, fun _ => false, fun _ => some true,
          ⟨false, 0, none, none, none⟩⟩ true
        ⟨some ⟨42, none, false⟩, true, "http://127.0.0.1:9108", false,
          ⟨"127.0.0.1:9108", true⟩⟩ =
      (⟨some ⟨42, none, false⟩, true, "http://127.0.0.1:9108", false,
        ⟨"127.0.0.1:9108", true⟩⟩, ⟨false, "Агент уже запущен"⟩, []) :=
  agentStart_already_running Platform.posix false
    ⟨true, true, ⟨true, 7⟩, true, fun _ => false, fun _ => some true,
      ⟨false, 0, none, none, none⟩⟩ true
    ⟨some ⟨42, none, false⟩, true, "http://127.0.0.1:9108", false,
      ⟨"127.0.0.1:9108", true⟩⟩ ⟨42, none, false⟩ rfl

/-- C4: a start whose spawned process never reports healthy resolves
`{ok:false}` with the descriptive health-failure message, the final state has
no running child, and the trace shows the spawn followed by a termination
request on the just-spawned handle — terminate is called before the result is
reported. -/
theorem agentStart_health_failure (platform : Platform) (packaged : Bool)
    (env : StartEnv) (tg : Bool) (s : AgentState)
    (hidle : s.agentChild = none)
    (hbin : env.spawnEnv.binExists = true)
    (hresp : ∀ n, env.probeRespAt n ≠ some true)
    (hk : env.stopEnv.killThrows = false) :
    (agentStartBody platform packaged env tg s).2.1 =
      ⟨false, "Сервис не вышел в готовность (healthz)"⟩ ∧
    (agentStartBody platform packaged env tg s).1.agentChild = none ∧
    (agentStartBody platform packaged env tg s).2.2.head? =
      some (Ev.spawn env.spawnEnv.pid) ∧
    (Ev.sigterm env.spawnEnv.pid ∈ (agentStartBody platform packaged env tg s).2.2 ∨
      Ev.spawnTaskkill env.spawnEnv.pid ∈
        (agentStartBody platform packaged env tg s).2.2) := by
  obtain ⟨r, hres, hok, hmsg, hchild, hrt, hcfg, hhead, hterm⟩ :=
    startAgentManaged_health_failure platform packaged env tg true s hbin hresp hk
  unfold agentStartBody
  rw [hidle]
  simp only [Option.isSome_none, Bool.false_eq_true, if_false]
  cases hout : startAgentManaged platform packaged env tg true s with
  | mk st res tr =>
    rw [hout] at hres hchild hhead hterm
    have hres2 : res = Except.ok r := hres
    subst hres2
    dsimp only
    cases hok2 : r.ok with
    | true => rw [hok2] at hok; exact absurd hok (by simp)
    | false =>
      simp only [Bool.false_eq_true, if_false]
      refine ⟨?_, hchild, hhead, hterm⟩
      rw [hmsg]
      rfl

/-- Witness for C4: concrete never-healthy environment. -/
theorem agentStart_health_failure_witness :
    ((agentStartBody Platform.posix false
        ⟨true, true, ⟨true, 43⟩, true, fun _ => false, fun _ => none,
          ⟨false, 0, none, none, none⟩⟩ true
        ⟨none, false, "http://127.0.0.1:9108", false,
          ⟨"127.0.0.1:9108", false⟩⟩).2.1 =
      ⟨false, "Сервис не вышел в готовность (healthz)"⟩) ∧
    ((agentStartBody Platform.posix false
        ⟨true, true, ⟨true, 43⟩, true, fun _ => false, fun _ => none,
          ⟨false, 0, none, none, none⟩⟩ true
        ⟨none, false, "http://127.0.0.1:9108", false,
          ⟨"127.0.0.1:9108", false⟩⟩).1.agentChild = none) ∧
    ((agentStartBody Platform.posix false
        ⟨true, true, ⟨true, 43⟩, true, fun _ => false, fun _ => none,
          ⟨false, 0, none, none, none⟩⟩ true
        ⟨none, false, "http://127.0.0.1:9108", false,
          ⟨"127.0.0.1:9108", false⟩⟩).2.2.head? = some (Ev.spawn 43)) ∧
    (Ev.sigterm 43 ∈ (agentStartBody Platform.posix false
        ⟨true, true, ⟨true, 43⟩, true, fun _ => false, fun _ => none,
          ⟨false, 0, none, none, none⟩⟩ true
        ⟨none, false, "http://127.0.0.1:9108", false,
          ⟨"127.0.0.1:9108", false⟩⟩).2.2 ∨
      Ev.spawnTaskkill 43 ∈ (agentStartBody Platform.posix false
        ⟨true, true, ⟨true, 43⟩, true, fun _ => false, fun _ => none,
          ⟨false, 0, none, none, none⟩⟩ true
        ⟨none, false, "http://127.0.0.1:9108", false,
          ⟨"127.0.0.1:9108", false⟩⟩).2.2) :=
  agentStart_health_failure Platform.posix false
    ⟨true, true, ⟨true, 43⟩, true, fun _ => false, fun _ => none,
      ⟨false, 0, none, none, none⟩⟩ true
    ⟨none, false, "http://127.0.0.1:9108", false, ⟨"127.0.0.1:9108", false⟩⟩
    rfl rfl (fun _ h => Option.noConfusion h) rfl

/-! ### Toggle outcomes (claim C2) -/

/-- C2: `telegram:set-enabled` invoked while running has three
distinguishable terminal outcomes: (a) the restart with the target flag
succeeds — success report, agent running with the target flag; (b) the
restart fails health but the rollback start with the previous flag succeeds —
distinct recoverable-failure report, agent running with
`featureEnabled = previous`; (c) restart and rollback both fail health —
distinct double-failure report, agent stopped.  The two failure messages
differ from each other (and from the success report, whose `ok` is true). -/
theorem toggleFeature_outcomes (platform : Platform) (packaged : Bool)
    (s : AgentState) (c : Child) (envA envB envC : ToggleEnv) (target : Bool)
    (_hrun : s.agentChild = some c)
    (hA1 : envA.start1.spawnEnv.binExists = true)
    (hA2 : envA.start1.probeRespAt 0 = some true)
    (hA3 : envA.start1.probeExitedAt 0 = false)
    (hB1 : envB.start1.spawnEnv.binExists = true)
    (hB2 : ∀ n, envB.start1.probeRespAt n ≠ some true)
    (hB3 : envB.start1.stopEnv.killThrows = false)
    (hB4 : envB.start2.spawnEnv.binExists = true)
    (hB5 : envB.start2.probeRespAt 0 = some true)
    (hB6 : envB.start2.probeExitedAt 0 = false)
    (hC1 : envC.start1.spawnEnv.binExists = true)
    (hC2 : ∀ n, envC.start1.probeRespAt n ≠ some true)
    (hC3 : envC.start1.stopEnv.killThrows = false)
    (hC4 : envC.start2.spawnEnv.binExists = true)
    (hC5 : ∀ n, envC.start2.probeRespAt n ≠ some true)
    (hC6 : envC.start2.stopEnv.killThrows = false) :
    ((telegramSetEnabledBody platform packaged envA target s).2.1 =
        ⟨true, if target then "Telegram-бот включен (сервис перезапущен)"
          else "Telegram-бот выключен (сервис перезапущен)"⟩ ∧
      (telegramSetEnabledBody platform packaged envA target s).1.agentChild.isSome
        = true ∧
      (telegramSetEnabledBody platform packaged envA target s).1.telegramEnabledRuntime
        = target) ∧
    ((telegramSetEnabledBody platform packaged envB target s).2.1 =
        ⟨false, "Не удалось переключить Telegram (Сервис не вышел в готовность (healthz)). Сервис восстановлен в прошлом режиме."⟩ ∧
      (telegramSetEnabledBody platform packaged envB target s).1.agentChild.isSome
        = true ∧
      (telegramSetEnabledBody platform packaged envB target s).1.telegramEnabledRuntime
        = s.telegramEnabledRuntime) ∧
    ((telegramSetEnabledBody platform packaged envC target s).2.1 =
        ⟨false, "Не удалось переключить Telegram (Сервис не вышел в готовность (healthz)) и восстановить предыдущий режим."⟩ ∧
      (telegramSetEnabledBody platform packaged envC target s).1.agentChild = none) ∧
    ("Не удалось переключить Telegram (Сервис не вышел в готовность (healthz)). Сервис восстановлен в прошлом режиме." ≠
      "Не удалось переключить Telegram (Сервис не вышел в готовность (healthz)) и восстановить предыдущий режим.") := by
  refine ⟨?_, ?_, ?_, by decide⟩
  · unfold telegramSetEnabledBody
    dsimp only
    rw [startAgentManaged_success platform packaged envA.start1 target true _
      hA1 hA2 hA3]
    exact ⟨rfl, rfl, rfl⟩
  · unfold telegramSetEnabledBody
    dsimp only
    obtain ⟨r, hres, hok, hmsg, hchild, hrt, hcfg, hhead, hterm⟩ :=
      startAgentManaged_health_failure platform packaged envB.start1 target true
        (stopAgentProcess platform envB.stop0 s).state hB1 hB2 hB3
    cases hout1 : startAgentManaged platform packaged envB.start1 target true
        (stopAgentProcess platform envB.stop0 s).state with
    | mk s1 res1 tr1 =>
      rw [hout1] at hres
      have hres2 : res1 = Except.ok r := hres
      subst hres2
      dsimp only
      cases hok2 : r.ok with
      | true => rw [hok2] at hok; exact absurd hok (by simp)
      | false =>
        simp only [Bool.false_eq_true, if_false]
        rw [startAgentManaged_success platform packaged envB.start2
          s.telegramEnabledRuntime true s1 hB4 hB5 hB6]
        refine ⟨?_, rfl, rfl⟩
        rw [hmsg]
        rfl
  · unfold telegramSetEnabledBody
    dsimp only
    obtain ⟨r, hres, hok, hmsg, hchild, hrt, hcfg, hhead, hterm⟩ :=
      startAgentManaged_health_failure platform packaged envC.start1 target true
        (stopAgentProcess platform envC.stop0 s).state hC1 hC2 hC3
    cases hout1 : startAgentManaged platform packaged envC.start1 target true
        (stopAgentProcess platform envC.stop0 s).state with
    | mk s1 res1 tr1 =>
      rw [hout1] at hres
      have hres2 : res1 = Except.ok r := hres
      subst hres2
      dsimp only
      cases hok2 : r.ok with
      | true => rw [hok2] at hok; exact absurd hok (by simp)
      | false =>
        simp only [Bool.false_eq_true, if_false]
        obtain ⟨r2, hres2, hok2b, hmsg2, hchild2, hrt2, hcfg2, hhead2, hterm2⟩ :=
          startAgentManaged_health_failure platform packaged envC.start2
            s.telegramEnabledRuntime true s1 hC4 hC5 hC6
        cases hout2 : startAgentManaged platform packaged envC.start2
            s.telegramEnabledRuntime true s1 with
        | mk s2 res2 tr2 =>
          rw [hout2] at hres2 hchild2
          have hres3 : res2 = Except.ok r2 := hres2
          subst hres3
          dsimp only
          cases hok3 : r2.ok with
          | true => rw [hok3] at hok2b; exact absurd hok2b (by simp)
          | false =>
            simp only [Bool.false_eq_true, if_false]
            refine ⟨?_, hchild2⟩
            rw [hmsg]
            rfl

/-- Witness for C2: the three scenarios at concrete environments from a
concrete running state. -/
theorem toggleFeature_outcomes_witness :
    ((telegramSetEnabledBody Platform.posix false
        ⟨⟨false, 0, none, none, none⟩,
          ⟨true, true, ⟨true, 50⟩, true, fun _ => false, fun _ => some true,
            ⟨false, 0, none, none, none⟩⟩,
          ⟨true, true, ⟨true, 51⟩, true, fun _ => false, fun _ => some true,
            ⟨false, 0, none, none, none⟩⟩⟩ true
        ⟨some ⟨42, none, false⟩, false, "http://127.0.0.1:9108", false,
          ⟨"127.0.0.1:9108", false⟩⟩).2.1 =
      ⟨true, if true then "Telegram-бот включен (сервис перезапущен)"
        else "Telegram-бот выключен (сервис перезапущен)"⟩ ∧
      (telegramSetEnabledBody Platform.posix false
        ⟨⟨false, 0, none, none, none⟩,
          ⟨true, true, ⟨true, 50⟩, true, fun _ => false, fun _ => some true,
            ⟨false, 0, none, none, none⟩⟩,
          ⟨true, true, ⟨true, 51⟩, true, fun _ => false, fun _ => some true,
            ⟨false, 0, none, none, none⟩⟩⟩ true
        ⟨some ⟨42, none, false⟩, false, "http://127.0.0.1:9108", false,
          ⟨"127.0.0.1:9108", false⟩⟩).1.agentChild.isSome = true ∧
      (telegramSetEnabledBody Platform.posix false
        ⟨⟨false, 0, none, none, none⟩,
          ⟨true, true, ⟨true, 50⟩, true, fun _ => false, fun _ => some true,
            ⟨false, 0, none, none, none⟩⟩,
          ⟨true, true, ⟨true, 51⟩, true, fun _ => false, fun _ => some true,
            ⟨false, 0, none, none, none⟩⟩⟩ true
        ⟨some ⟨42, none, false⟩, false, "http://127.0.0.1:9108", false,
          ⟨"127.0.0.1:9108", false⟩⟩).1.telegramEnabledRuntime = true) ∧
    ((telegramSetEnabledBody Platform.posix false
        ⟨⟨false, 0, none, none, none⟩,
          ⟨true, true, ⟨true, 50⟩, true, fun _ => false, fun _ => none,
            ⟨false, 0, none, none, none⟩⟩,
          ⟨true, true, ⟨true, 51⟩, true, fun _ => false, fun _ => some true,
            ⟨false, 0, none, none, none⟩⟩⟩ true
        ⟨some ⟨42, none, false⟩, false, "http://127.0.0.1:9108", false,
          ⟨"127.0.0.1:9108", false⟩⟩).2.1 =
      ⟨false, "Не удалось переключить Telegram (Сервис не вышел в готовность (healthz)). Сервис восстановлен в прошлом режиме."⟩ ∧
      (telegramSetEnabledBody Platform.posix false
        ⟨⟨false, 0, none, none, none⟩,
          ⟨true, true, ⟨true, 50⟩, true, fun _ => false, fun _ => none,
            ⟨false, 0, none, none, none⟩⟩,
          ⟨true, true, ⟨true, 51⟩, true, fun _ => false, fun _ => some true,
            ⟨false, 0, none, none, none⟩⟩⟩ true
        ⟨some ⟨42, none, false⟩, false, "http://127.0.0.1:9108", false,
          ⟨"127.0.0.1:9108", false⟩⟩).1.agentChild.isSome = true ∧
      (telegramSetEnabledBody Platform.posix false
        ⟨⟨false, 0, none, none, none⟩,
          ⟨true, true, ⟨true, 50⟩, true, fun _ => false, fun _ => none,
            ⟨false, 0, none, none, none⟩⟩,
          ⟨true, true, ⟨true, 51⟩, true, fun _ => false, fun _ => some true,
            ⟨false, 0, none, none, none⟩⟩⟩ true
        ⟨some ⟨42, none, false⟩, false, "http://127.0.0.1:9108", false,
          ⟨"127.0.0.1:9108", false⟩⟩).1.telegramEnabledRuntime = false) ∧
    ((telegramSetEnabledBody Platform.posix false
        ⟨⟨false, 0, none, none, none⟩,
          ⟨true, true, ⟨true, 50⟩, true, fun _ => false, fun _ => none,
            ⟨false, 0, none, none, none⟩⟩,
          ⟨true, true, ⟨true, 51⟩, true, fun _ => false, fun _ => none,
            ⟨false, 0, none, none, none⟩⟩⟩ true
        ⟨some ⟨42, none, false⟩, false, "http://127.0.0.1:9108", false,
          ⟨"127.0.0.1:9108", false⟩⟩).2.1 =
      ⟨false, "Не удалось переключить Telegram (Сервис не вышел в готовность (healthz)) и восстановить предыдущий режим."⟩ ∧
      (telegramSetEnabledBody Platform.posix false
        ⟨⟨false, 0, none, none, none⟩,
          ⟨true, true, ⟨true, 50⟩, true, fun _ => false, fun _ => none,
            ⟨false, 0, none, none, none⟩⟩,
          ⟨true, true, ⟨true, 51⟩, true, fun _ => false, fun _ => none,
            ⟨false, 0, none, none, none⟩⟩⟩ true
        ⟨some ⟨42, none, false⟩, false, "http://127.0.0.1:9108", false,
          ⟨"127.0.0.1:9108", false⟩⟩).1.agentChild = none) ∧
    ("Не удалось переключить Telegram (Сервис не вышел в готовность (healthz)). Сервис восстановлен в прошлом режиме." ≠
      "Не удалось переключить Telegram (Сервис не вышел в готовность (healthz)) и восстановить предыдущий режим.") :=
  toggleFeature_outcomes Platform.posix false
    ⟨some ⟨42, none, false⟩, false, "http://127.0.0.1:9108", false,
      ⟨"127.0.0.1:9108", false⟩⟩ ⟨42, none, false⟩
    ⟨⟨false, 0, none, none, none⟩,
      ⟨true, true, ⟨true, 50⟩, true, fun _ => false, fun _ => some true,
        ⟨false, 0, none, none, none⟩⟩,
      ⟨true, true, ⟨true, 51⟩, true, fun _ => false, fun _ => some true,
        ⟨false, 0, none, none, none⟩⟩⟩
    ⟨⟨false, 0, none, none, none⟩,
      ⟨true, true, ⟨true, 50⟩, true, fun _ => false, fun _ => none,
        ⟨false, 0, none, none, none⟩⟩,
      ⟨true, true, ⟨true, 51⟩, true, fun _ => false, fun _ => some true,
        ⟨false, 0, none, none, none⟩⟩⟩
    ⟨⟨false, 0, none, none, none⟩,
      ⟨true, true, ⟨true, 50⟩, true, fun _ => false, fun _ => none,
        ⟨false, 0, none, none, none⟩⟩,
      ⟨true, true, ⟨true, 51⟩, true, fun _ => false, fun _ => none,
        ⟨false, 0, none, none, none⟩⟩⟩
    true rfl
    rfl rfl rfl
    rfl (fun _ h => Option.noConfusion h) rfl rfl rfl rfl
    rfl (fun _ h => Option.noConfusion h) rfl rfl
    (fun _ h => Option.noConfusion h) rfl

/-! ### Serializer properties (claim C3) and status (claim C7) -/

lemma runChain_append (l₁ l₂ : List OpBody) (s : AgentState) :
    runChain (l₁ ++ l₂) s =
      ((runChain l₂ (runChain l₁ s).1).1,
        (runChain l₁ s).2.1 ++ (runChain l₂ (runChain l₁ s).1).2.1,
        (runChain l₁ s).2.2 ++ (runChain l₂ (runChain l₁ s).1).2.2) := by
  induction l₁ generalizing s with
  | nil => simp [runChain]
  | cons b rest ih =>
    simp only [List.cons_append, runChain, List.append_eq]
    rw [ih]
    simp [List.append_assoc]

lemma runChain_length (bodies : List OpBody) (s : AgentState) :
    (runChain bodies s).2.1.length = bodies.length := by
  induction bodies generalizing s with
  | nil => rfl
  | cons b rest ih => simp [runChain, ih]

lemma chainEntryStates_transitioning (bodies : List OpBody) (s e : AgentState)
    (he : e ∈ chainEntryStates bodies s) : e.agentTransitioning = true := by
  induction bodies generalizing s with
  | nil => exact absurd he (by simp [chainEntryStates])
  | cons b rest ih =>
    rcases List.mem_cons.mp he with rfl | hm
    · rfl
    · exact ih _ hm

lemma runChain_final_flag (bodies : List OpBody) (s : AgentState)
    (h : bodies ≠ []) : (runChain bodies s).1.agentTransitioning = false := by
  induction bodies generalizing s with
  | nil => exact absurd rfl h
  | cons b rest ih =>
    cases rest with
    | nil => rfl
    | cons b2 rest2 => exact ih (withAgentOpRun b s).1 (by simp)

/-- C3: the serializer executes submitted operations strictly one at a time
in submission order — running `l₁ ++ l₂` equals running `l₁` and then `l₂`
from the state `l₁` reached, with the results and effect traces concatenated
in order (no interleaving of effects); every submitted operation yields a
result even when earlier operations reject (the results list has one entry
per submission); each operation observes `transitioning = true` on entry; and
after a non-empty chain drains, `transitioning` is back to false. -/
theorem withAgentOp_serializes (bodies l₁ l₂ : List OpBody) (s e : AgentState)
    (he : e ∈ chainEntryStates bodies s) (hne : bodies ≠ []) :
    (runChain (l₁ ++ l₂) s).1 = (runChain l₂ (runChain l₁ s).1).1 ∧
    (runChain (l₁ ++ l₂) s).2.1 =
      (runChain l₁ s).2.1 ++ (runChain l₂ (runChain l₁ s).1).2.1 ∧
    (runChain (l₁ ++ l₂) s).2.2 =
      (runChain l₁ s).2.2 ++ (runChain l₂ (runChain l₁ s).1).2.2 ∧
    (runChain bodies s).2.1.length = bodies.length ∧
    e.agentTransitioning = true ∧
    (runChain bodies s).1.agentTransitioning = false := by
  refine ⟨?_, ?_, ?_, runChain_length bodies s,
    chainEntryStates_transitioning bodies s e he, runChain_final_flag bodies s hne⟩
  · rw [runChain_append]
  · rw [runChain_append]
  · rw [runChain_append]

/-- The rejecting operation used by the C3 witness: its promise rejects, yet
the chain keeps draining. -/
def rejectingOp : OpBody := fun s => (s, Except.error "boom", [])

/-- Witness for C3: a failing (rejecting) operation chained before a stop
operation; both run, in order, and the flag is false at the end. -/
theorem withAgentOp_serializes_witness :
    ((runChain
        ([rejectingOp] ++ [agentStopOp Platform.posix ⟨false, 0, none, none, none⟩])
        ⟨none, false, "http://127.0.0.1:9108", false,
          ⟨"127.0.0.1:9108", false⟩⟩).1 =
      (runChain [agentStopOp Platform.posix ⟨false, 0, none, none, none⟩]
        (runChain [rejectingOp]
          ⟨none, false, "http://127.0.0.1:9108", false,
            ⟨"127.0.0.1:9108", false⟩⟩).1).1) ∧
    ((runChain
        ([rejectingOp] ++ [agentStopOp Platform.posix ⟨false, 0, none, none, none⟩])
        ⟨none, false, "http://127.0.0.1:9108", false,
          ⟨"127.0.0.1:9108", false⟩⟩).2.1.length = 2) ∧
    (AgentState.agentTransitioning
      ⟨none, false, "http://127.0.0.1:9108", true, ⟨"127.0.0.1:9108", false⟩⟩
      = true) ∧
    ((runChain
        ([rejectingOp] ++ [agentStopOp Platform.posix ⟨false, 0, none, none, none⟩])
        ⟨none, false, "http://127.0.0.1:9108", false,
          ⟨"127.0.0.1:9108", false⟩⟩).1.agentTransitioning = false) := by
  have h := withAgentOp_serializes
    ([rejectingOp] ++ [agentStopOp Platform.posix ⟨false, 0, none, none, none⟩])
    [rejectingOp]
    [agentStopOp Platform.posix ⟨false, 0, none, none, none⟩]
    ⟨none, false, "http://127.0.0.1:9108", false, ⟨"127.0.0.1:9108", false⟩⟩
    ⟨none, false, "http://127.0.0.1:9108", true, ⟨"127.0.0.1:9108", false⟩⟩
    (List.mem_cons_self _ _) (by simp)
  refine ⟨h.1, ?_, h.2.2.2.2.1, h.2.2.2.2.2⟩
  rw [h.2.2.2.1]
  rfl

/-- C7: `agent:status` is a pure read of the module state answered outside
the serializer: it returns the snapshot of the current state (including the
serializer's `transitioning` flag, which is true for every state an operation
observes while executing), and once the exit notification for the tracked
child has fired it reports `running = false` and `pid = null` — never the pid
of a handle whose exit has been observed. -/
theorem agentStatus_spec (s : AgentState) (c : Child) (bodies : List OpBody)
    (e : AgentState) (hc : s.agentChild = some c)
    (he : e ∈ chainEntryStates bodies s) :
    agentStatusHandler (agentExitFired c s) =
      ⟨false, none, false, s.backendBaseUrlRuntime, s.agentTransitioning⟩ ∧
    (agentStatusHandler e).transitioning = true ∧
    agentStatusHandler s =
      ⟨s.agentChild.isSome, Option.map Child.pid s.agentChild,
        s.telegramEnabledRuntime, s.backendBaseUrlRuntime, s.agentTransitioning⟩ := by
  refine ⟨?_, chainEntryStates_transitioning bodies s e he, rfl⟩
  unfold agentExitFired
  rw [hc]
  simp [agentStatusHandler]

/-- Witness for C7 at a concrete running state whose child has exited (the
stored child object's `exitCode` was set by the OS before the notification
fires). -/
theorem agentStatus_spec_witness :
    agentStatusHandler (agentExitFired ⟨42, some 0, false⟩
        ⟨some ⟨42, some 0, false⟩, true, "http://127.0.0.1:9108", false,
          ⟨"127.0.0.1:9108", true⟩⟩) =
      ⟨false, none, false, "http://127.0.0.1:9108", false⟩ ∧
    (agentStatusHandler
      ⟨some ⟨42, some 0, false⟩, true, "http://127.0.0.1:9108", true,
        ⟨"127.0.0.1:9108", true⟩⟩).transitioning = true ∧
    agentStatusHandler
        ⟨some ⟨42, some 0, false⟩, true, "http://127.0.0.1:9108", false,
          ⟨"127.0.0.1:9108", true⟩⟩ =
      ⟨(some (⟨42, some 0, false⟩ : Child)).isSome,
        Option.map Child.pid (some ⟨42, some 0, false⟩), true,
        "http://127.0.0.1:9108", false⟩ :=
  agentStatus_spec
    ⟨some ⟨42, some 0, false⟩, true, "http://127.0.0.1:9108", false,
      ⟨"127.0.0.1:9108", true⟩⟩
    ⟨42, some 0, false⟩
    [agentStopOp Platform.posix ⟨false, 0, none, none, none⟩]
    ⟨some ⟨42, some 0, false⟩, true, "http://127.0.0.1:9108", true,
      ⟨"127.0.0.1:9108", true⟩⟩
    rfl (List.mem_cons_self _ _)

end Monitord
